import Mathlib

/-!
Verification of the finance dashboard frontend (xBetex/finance).

The definitions below are a shallow embedding of the three JavaScript
source files:

* src/frontend/src/components/AccountIndicator.jsx
  (this file also holds the TransactionList component with
  getAccountName, formatDate and groupTransactionsByMonth),
* src/frontend/src/pages/Dashboard.jsx,
* src/frontend/src/components/BalanceChart.jsx.

Machine numbers (JS doubles) are modelled by the rationals; JS dates
are modelled by calendar triples (year, month, day) whose numeric
timestamp is modelled by a monotone encoding, which is faithful for
the comparisons the code performs.  Fetches are modelled by an
explicit result value (success with data, or failure), and the React
state updates performed by the loaders become explicit functions from
the previous state and the fetch result to the new state.
-/

/-- A calendar date, as the code obtains from the date strings it
parses with the Date constructor. -/
structure SimpleDate where
  year : Nat
  month : Nat
  day : Nat
deriving DecidableEq, Repr

/-- The numeric value of a date, standing in for the JS Date
timestamp: for calendar dates (month at most 12, day at most 31) this
encoding is strictly monotone in the actual point in time, so it
induces the same order the comparator in the source computes with
subtraction of timestamps. -/
def dateVal (d : SimpleDate) : Nat :=
  d.year * 10000 + d.month * 100 + d.day

/-- Account record: { id, name, balance } as served by GET /accounts/. -/
structure Account where
  id : Nat
  name : String
  balance : Rat
deriving DecidableEq, Repr

/-- Transaction record as served by GET /transactions/. -/
structure Transaction where
  id : Nat
  description : String
  amount : Rat
  transaction_type : String
  category : String
  account_id : Nat
  date : SimpleDate
deriving DecidableEq, Repr

/-- BalanceHistoryPoint record as served by
GET /accounts/{id}/balance-history. -/
structure BalanceHistoryPoint where
  date : SimpleDate
  balance : Rat
deriving DecidableEq, Repr

/-! ## AccountIndicator.jsx : balance classification -/

/-- AccountIndicator.jsx, getBalanceColor:
if (balance > 1000) return 'success.main';
if (balance > 0) return 'warning.main';
return 'error.main'; -/
def getBalanceColor (balance : Rat) : String :=
  if balance > 1000 then "success.main"
  else if balance > 0 then "warning.main"
  else "error.main"

/-- AccountIndicator.jsx, getBalanceIcon: trending up for positive,
trending down for negative, neutral otherwise. -/
def getBalanceIcon (balance : Rat) : String :=
  if balance > 0 then "TrendingUpIcon"
  else if balance < 0 then "TrendingDownIcon"
  else "AccountBalanceIcon"

/-- AccountIndicator.jsx, getProgressValue:
const maxValue = 5000;
return Math.max(0, Math.min(100, (balance / maxValue) * 100)); -/
def getProgressValue (balance : Rat) : Rat :=
  max 0 (min 100 (balance / 5000 * 100))

/-- Modelled from the spec: the clamp function the spec states the
progress value with, clamp(x, lo, hi) = max(lo, min(hi, x)). -/
def clampSpec (lo hi x : Rat) : Rat :=
  max lo (min hi x)

/-! ## TransactionList (in AccountIndicator.jsx) : account lookup,
date formatting and grouping -/

/-- TransactionList, getAccountName:
const account = accounts.find(acc => acc.id === accountId);
return account ? account.name : 'Conta desconhecida'; -/
def getAccountName (accounts : List Account) (accountId : Nat) : String :=
  match accounts.find? (fun acc => acc.id == accountId) with
  | some account => account.name
  | none => "Conta desconhecida"

/-- Month names produced by the date-fns MMMM pattern under the pt-BR
locale, as used by formatDate and groupTransactionsByMonth. -/
def monthNamePtBR (m : Nat) : String :=
  match m with
  | 1 => "janeiro"
  | 2 => "fevereiro"
  | 3 => "março"
  | 4 => "abril"
  | 5 => "maio"
  | 6 => "junho"
  | 7 => "julho"
  | 8 => "agosto"
  | 9 => "setembro"
  | 10 => "outubro"
  | 11 => "novembro"
  | 12 => "dezembro"
  | _ => ""

/-- The month key format(date, 'MMMM yyyy', ptBR) computed for each
transaction inside groupTransactionsByMonth. -/
def monthKey (t : Transaction) : String :=
  monthNamePtBR t.date.month ++ " " ++ toString t.date.year

/-- One step of the grouping loop: grouped[monthKey].push(transaction),
creating the key (at the end of the object, in JS insertion order) when
it is not present yet. -/
def insertGrouped (key : String) (t : Transaction) :
    List (String × List Transaction) → List (String × List Transaction)
  | [] => [(key, [t])]
  | (k, ts) :: rest =>
    if k = key then (k, ts ++ [t]) :: rest
    else (k, ts) :: insertGrouped key t rest

/-- The first phase of groupTransactionsByMonth: the forEach loop that
builds the grouped object, whose keys (non-numeric month labels)
iterate in first-insertion order. -/
def buildGroups (transactions : List Transaction) :
    List (String × List Transaction) :=
  transactions.foldl (fun acc t => insertGrouped (monthKey t) t acc) []

/-- Insertion step of the stable descending sort the source performs
with sort((a, b) => new Date(b.date) - new Date(a.date)). -/
def insertByDateDesc (t : Transaction) :
    List Transaction → List Transaction
  | [] => [t]
  | x :: xs =>
    if dateVal x.date ≤ dateVal t.date then t :: x :: xs
    else x :: insertByDateDesc t xs

/-- Stable sort by date descending (Array.prototype.sort is stable and
the comparator subtracts timestamps, newest first). -/
def sortByDateDesc (ts : List Transaction) : List Transaction :=
  ts.foldr insertByDateDesc []

/-- TransactionList, groupTransactionsByMonth: group the transactions
by their locale month label, then sort each group by date descending.
The result models the JS object together with its key iteration
order. -/
def groupTransactionsByMonth (transactions : List Transaction) :
    List (String × List Transaction) :=
  (buildGroups transactions).map (fun g => (g.1, sortByDateDesc g.2))

/-- The transactions of all groups, in group order: what the rendering
loop Object.entries(...).map iterates over in total. -/
def joinGroups (gs : List (String × List Transaction)) : List Transaction :=
  gs.foldr (fun g acc => g.2 ++ acc) []

/-! ## Dashboard.jsx : fetch result handling and filter state -/

/-- The outcome of an awaited fetch-and-parse: either the parsed JSON
data, or a raised error (network or parse failure) that control jumps
over into the catch block. -/
inductive FetchResult (α : Type) where
  | success (data : α)
  | failure
deriving DecidableEq, Repr

/-- Dashboard.jsx, loadAccounts applied to the accounts state: on
success setAccounts(data); the catch block only logs, so on failure
the previous accounts state is untouched. -/
def loadAccounts (prev : List Account) :
    FetchResult (List Account) → List Account
  | .success data => data
  | .failure => prev

/-- Dashboard.jsx, loadTransactions applied to the transactions
state: on success setTransactions(data); the catch block only logs,
so on failure the previous transactions state is untouched. -/
def loadTransactions (prev : List Transaction) :
    FetchResult (List Transaction) → List Transaction
  | .success data => data
  | .failure => prev

/-- BalanceChart.jsx, loadBalanceHistory applied to the
balanceHistory state: on success setBalanceHistory(data); the catch
block logs and then calls setBalanceHistory([]), so on failure the
state is reset to the empty list. -/
def loadBalanceHistory (_prev : List BalanceHistoryPoint) :
    FetchResult (List BalanceHistoryPoint) → List BalanceHistoryPoint
  | .success data => data
  | .failure => []

/-- The Dashboard filter state: month and year are numbers (initially
the current month and year), the other three fields are strings that
start out empty. -/
structure Filters where
  month : Nat
  year : Nat
  transactionType : String
  category : String
  accountId : String
deriving DecidableEq, Repr

/-- Dashboard.jsx, the URLSearchParams built at the top of
loadTransactions: each field is appended only when it is truthy (a
number is truthy when nonzero, a string when nonempty), in the fixed
source order month, year, transaction_type, category, account_id. -/
def buildTransactionParams (f : Filters) : List (String × String) :=
  (if f.month ≠ 0 then [("month", toString f.month)] else []) ++
  (if f.year ≠ 0 then [("year", toString f.year)] else []) ++
  (if f.transactionType ≠ "" then
    [("transaction_type", f.transactionType)] else []) ++
  (if f.category ≠ "" then [("category", f.category)] else []) ++
  (if f.accountId ≠ "" then [("account_id", f.accountId)] else [])

/-- The query string rendered from the accumulated parameters, as
URLSearchParams serializes into the fetch URL. -/
def queryString (params : List (String × String)) : String :=
  String.intercalate "&" (params.map (fun p => p.1 ++ "=" ++ p.2))

/-- A JS value stored in a filter object field: the month and year
fields hold numbers, the remaining fields hold strings. -/
inductive FilterValue where
  | num (n : Nat)
  | str (s : String)
deriving DecidableEq, Repr

/-- The filter state viewed as the JS object it is: its five fields
in declaration order. -/
def filtersToPairs (f : Filters) : List (String × FilterValue) :=
  [("month", .num f.month), ("year", .num f.year),
   ("transactionType", .str f.transactionType),
   ("category", .str f.category), ("accountId", .str f.accountId)]

/-- The JS object spread { ...a, ...b }: the fields of a, in order,
with their values overridden by b where b also has the key, followed
by the fields of b that a lacks. -/
def spreadMerge (a b : List (String × FilterValue)) :
    List (String × FilterValue) :=
  a.map (fun kv =>
    match b.lookup kv.1 with
    | some w => (kv.1, w)
    | none => kv) ++
  b.filter (fun kv => (a.lookup kv.1).isNone)

/-- Dashboard.jsx, handleFiltersChange:
setFilters({ ...filters, ...newFilters }); the update object may name
any subset of the fields. -/
def handleFiltersChange (filters : Filters)
    (newFilters : List (String × FilterValue)) :
    List (String × FilterValue) :=
  spreadMerge (filtersToPairs filters) newFilters

/-! ## BalanceChart.jsx : chart data reshape -/

/-- Left zero padding to two digits, as toLocaleDateString pt-BR
renders day and month components. -/
def pad2 (n : Nat) : String :=
  if n < 10 then "0" ++ toString n else toString n

/-- The string new Date(d).toLocaleDateString('pt-BR') produces:
day/month/year with two-digit day and month. -/
def toLocaleDateStringPtBR (d : SimpleDate) : String :=
  pad2 d.day ++ "/" ++ pad2 d.month ++ "/" ++ toString d.year

/-- The pair of parallel arrays prepareChartData returns for the
chart: locale date labels on the x axis and the balances as the
series. -/
structure ChartData where
  xAxis : List String
  series : List Rat
deriving DecidableEq, Repr

/-- BalanceChart.jsx, prepareChartData:
if (!balanceHistory.length) return { xAxis: [], series: [] };
const dates = balanceHistory.map(item => new Date(item.date).toLocaleDateString('pt-BR'));
const balances = balanceHistory.map(item => item.balance);
return { xAxis: dates, series: balances }; -/
def prepareChartData (balanceHistory : List BalanceHistoryPoint) :
    ChartData :=
  if balanceHistory.length = 0 then ⟨[], []⟩
  else
    ⟨balanceHistory.map (fun item => toLocaleDateStringPtBR item.date),
     balanceHistory.map (fun item => item.balance)⟩

/-! ## Helper lemmas -/

theorem joinGroups_nil : joinGroups [] = [] := rfl

theorem joinGroups_cons (g : String × List Transaction)
    (gs : List (String × List Transaction)) :
    joinGroups (g :: gs) = g.2 ++ joinGroups gs := rfl

theorem joinGroups_insertGrouped (k : String) (t : Transaction)
    (l : List (String × List Transaction)) :
    List.Perm (joinGroups (insertGrouped k t l)) (joinGroups l ++ [t]) := by
  induction l with
  | nil => simp [insertGrouped, joinGroups]
  | cons g rest ih =>
    obtain ⟨k', ts⟩ := g
    by_cases h : k' = k
    · rw [insertGrouped, if_pos h, joinGroups_cons, joinGroups_cons]
      rw [List.append_assoc, List.append_assoc]
      exact List.Perm.append_left ts List.perm_append_comm
    · rw [insertGrouped, if_neg h, joinGroups_cons, joinGroups_cons,
        List.append_assoc]
      exact List.Perm.append_left ts ih

theorem joinGroups_buildGroups_aux (ts : List Transaction)
    (acc : List (String × List Transaction)) :
    List.Perm
      (joinGroups (ts.foldl (fun a t => insertGrouped (monthKey t) t a) acc))
      (joinGroups acc ++ ts) := by
  induction ts generalizing acc with
  | nil => simp
  | cons t ts ih =>
    rw [List.foldl_cons]
    refine (ih _).trans ?_
    refine ((joinGroups_insertGrouped (monthKey t) t acc).append_right ts).trans ?_
    rw [List.append_assoc]
    exact List.Perm.refl _

theorem insertByDateDesc_perm (t : Transaction) (l : List Transaction) :
    List.Perm (insertByDateDesc t l) (t :: l) := by
  induction l with
  | nil => exact List.Perm.refl _
  | cons x xs ih =>
    rw [insertByDateDesc]
    by_cases h : dateVal x.date ≤ dateVal t.date
    · rw [if_pos h]
    · rw [if_neg h]
      exact (ih.cons x).trans (List.Perm.swap t x xs)

theorem sortByDateDesc_perm (l : List Transaction) :
    List.Perm (sortByDateDesc l) l := by
  induction l with
  | nil => exact List.Perm.refl _
  | cons t ts ih =>
    exact (insertByDateDesc_perm t (sortByDateDesc ts)).trans (ih.cons t)

theorem joinGroups_map_sort (gs : List (String × List Transaction)) :
    List.Perm (joinGroups (gs.map (fun g => (g.1, sortByDateDesc g.2))))
      (joinGroups gs) := by
  induction gs with
  | nil => exact List.Perm.refl _
  | cons g rest ih =>
    exact List.Perm.append (sortByDateDesc_perm g.2) ih

theorem lookup_append_or (k : String) (xs ys : List (String × FilterValue)) :
    List.lookup k (xs ++ ys) = (List.lookup k xs).or (List.lookup k ys) := by
  induction xs with
  | nil => simp [List.lookup]
  | cons p xs ih =>
    obtain ⟨k', v⟩ := p
    by_cases h : k = k'
    · have hbe : (k == k') = true := beq_iff_eq.mpr h
      simp [List.lookup, hbe]
    · have hbe : (k == k') = false := beq_eq_false_iff_ne.mpr h
      simp [List.lookup, hbe, ih]

theorem lookup_spread_map (a b : List (String × FilterValue)) (k : String) :
    List.lookup k (a.map (fun kv =>
      match b.lookup kv.1 with
      | some w => (kv.1, w)
      | none => kv)) =
    (List.lookup k a).map (fun v => (b.lookup k).getD v) := by
  induction a with
  | nil => simp
  | cons p a ih =>
    obtain ⟨k', v⟩ := p
    by_cases h : k = k'
    · subst h
      cases hb : b.lookup k <;> simp [List.lookup, hb]
    · have hbe : (k == k') = false := beq_eq_false_iff_ne.mpr h
      cases hb : b.lookup k' <;> simp [List.lookup, hbe, hb, ih]

theorem lookup_filter_kept (a b : List (String × FilterValue)) (k : String) :
    List.lookup k (b.filter (fun kv => (a.lookup kv.1).isNone)) =
      if (List.lookup k a).isNone then List.lookup k b else none := by
  induction b with
  | nil => simp
  | cons p b ih =>
    obtain ⟨k', w⟩ := p
    by_cases h : k = k'
    · subst h
      cases ha : (List.lookup k a).isNone <;>
        simp [List.filter, List.lookup, ha, ih]
    · have hbe : (k == k') = false := beq_eq_false_iff_ne.mpr h
      cases ha : (List.lookup k' a).isNone <;>
        simp [List.filter, List.lookup, hbe, ha, ih]

theorem lookup_spreadMerge (a b : List (String × FilterValue)) (k : String) :
    List.lookup k (spreadMerge a b) =
      (List.lookup k b).or (List.lookup k a) := by
  unfold spreadMerge
  rw [lookup_append_or, lookup_spread_map, lookup_filter_kept]
  cases ha : List.lookup k a <;> cases hb : List.lookup k b <;>
    simp [ha, hb]

/-! ## Claim theorems -/

/-- C1: groupTransactionsByMonth applied to three transactions dated
2024-01-05, 2024-01-20 and 2024-02-01, in that input order, returns
exactly two groups, iterated in first-encounter insertion order of
the month labels (the January 2024 label first, the February 2024
label second), and the January group holds its two transactions
sorted descending by date: the one dated 2024-01-20 before the one
dated 2024-01-05. -/
theorem groupTransactionsByMonth_example :
    groupTransactionsByMonth
      [⟨1, "a", 10, "entrada", "x", 1, ⟨2024, 1, 5⟩⟩,
       ⟨2, "b", 20, "entrada", "x", 1, ⟨2024, 1, 20⟩⟩,
       ⟨3, "c", 30, "entrada", "x", 1, ⟨2024, 2, 1⟩⟩] =
    [("janeiro 2024",
      [⟨2, "b", 20, "entrada", "x", 1, ⟨2024, 1, 20⟩⟩,
       ⟨1, "a", 10, "entrada", "x", 1, ⟨2024, 1, 5⟩⟩]),
     ("fevereiro 2024",
      [⟨3, "c", 30, "entrada", "x", 1, ⟨2024, 2, 1⟩⟩])] := by
  decide

/-- C2: for every balance b, getBalanceColor yields the success color
exactly when b exceeds 1000, the error color exactly when b is at
most 0, and the warning color exactly when b lies strictly between 0
and 1000 inclusive of 1000; so a balance of exactly 1000 gets the
warning color and a balance of exactly 0 gets the error color. -/
theorem getBalanceColor_tiers (b : Rat) :
    (getBalanceColor b = "success.main" ↔ b > 1000) ∧
    (getBalanceColor b = "error.main" ↔ b ≤ 0) ∧
    (getBalanceColor b = "warning.main" ↔ 0 < b ∧ b ≤ 1000) := by
  have hse : ("success.main" : String) ≠ "error.main" := by decide
  have hsw : ("success.main" : String) ≠ "warning.main" := by decide
  have hwe : ("warning.main" : String) ≠ "error.main" := by decide
  unfold getBalanceColor
  split_ifs with h1 h2
  · exact ⟨iff_of_true rfl h1,
      ⟨fun hs => absurd hs hse, fun hb => absurd h1 (by linarith)⟩,
      ⟨fun hs => absurd hs hsw, fun hb => absurd h1 (not_lt.mpr hb.2)⟩⟩
  · exact ⟨⟨fun hw => absurd hw (Ne.symm hsw), fun hb => absurd hb h1⟩,
      ⟨fun hw => absurd hw hwe, fun hb => absurd h2 (not_lt.mpr hb)⟩,
      iff_of_true rfl ⟨h2, not_lt.mp h1⟩⟩
  · exact ⟨⟨fun he => absurd he (Ne.symm hse), fun hb => absurd hb h1⟩,
      iff_of_true rfl (not_lt.mp h2),
      ⟨fun he => absurd he (Ne.symm hwe), fun hb => absurd hb.1 h2⟩⟩

/-- C3: for every balance b, getProgressValue returns exactly the
value of b divided by 5000, times 100, clamped to the interval from 0
to 100; in particular a balance of 2500 gives 50, a balance of 10000
gives 100, and a balance of minus 100 gives 0. -/
theorem getProgressValue_clamp :
    (∀ b : Rat, getProgressValue b = clampSpec 0 100 (b / 5000 * 100)) ∧
    getProgressValue 2500 = 50 ∧
    getProgressValue 10000 = 100 ∧
    getProgressValue (-100) = 0 := by
  refine ⟨fun b => rfl, ?_, ?_, ?_⟩ <;>
    rw [getProgressValue] <;> norm_num [min_def, max_def]

/-- C4, counterexample: the claim says a fetch failure in
loadTransactions resets the displayed transactions to the empty list,
but the catch block of loadTransactions only logs, so with one
previously displayed transaction the state after a failure is not
empty. -/
theorem loadTransactions_failure_not_empty :
    loadTransactions [⟨1, "t", 5, "entrada", "x", 1, ⟨2024, 1, 1⟩⟩]
      FetchResult.failure ≠ [] := by
  decide

/-- C4, amended: on a fetch failure the error is caught, and the
affected displayed state is left at its previous value for accounts
(loadAccounts) and for transactions (loadTransactions), and reset to
the empty list for balance history (loadBalanceHistory). -/
theorem fetch_failure_state (accs : List Account) (txs : List Transaction)
    (hist : List BalanceHistoryPoint) :
    loadAccounts accs FetchResult.failure = accs ∧
    loadTransactions txs FetchResult.failure = txs ∧
    loadBalanceHistory hist FetchResult.failure = [] :=
  ⟨rfl, rfl, rfl⟩

/-- C5: with filter state month 3, year 2024, and the type, category
and account fields all empty, loadTransactions builds exactly the
parameters month=3 and year=2024, in that order, and nothing else, so
the query string is month=3&year=2024. -/
theorem loadTransactions_query_example :
    buildTransactionParams ⟨3, 2024, "", "", ""⟩ =
      [("month", "3"), ("year", "2024")] ∧
    queryString (buildTransactionParams ⟨3, 2024, "", "", ""⟩) =
      "month=3&year=2024" := by
  decide

/-- C6: for every input list of balance-history points,
prepareChartData returns the locale date strings of the points, in
order, as the x axis labels and the balances of the points, in order,
as the series values, with no resorting; the empty input yields two
empty sequences; and the two-point example of the spec evaluates to
the two expected labels and values. -/
theorem prepareChartData_parallel_arrays :
    (∀ points : List BalanceHistoryPoint,
      (prepareChartData points).xAxis =
        points.map (fun p => toLocaleDateStringPtBR p.date) ∧
      (prepareChartData points).series = points.map (fun p => p.balance)) ∧
    prepareChartData [] = ⟨[], []⟩ ∧
    prepareChartData [⟨⟨2024, 1, 1⟩, 100⟩, ⟨⟨2024, 1, 2⟩, 150⟩] =
      ⟨["01/01/2024", "02/01/2024"], [100, 150]⟩ := by
  refine ⟨fun points => ?_, rfl, by decide⟩
  cases points with
  | nil => exact ⟨rfl, rfl⟩
  | cons p ps => exact ⟨rfl, rfl⟩

/-- C7: for every accounts list and every account id that matches no
account in the list, getAccountName returns the sentinel label Conta
desconhecida instead of failing. -/
theorem getAccountName_unknown (accounts : List Account) (accountId : Nat)
    (h : ∀ a ∈ accounts, a.id ≠ accountId) :
    getAccountName accounts accountId = "Conta desconhecida" := by
  unfold getAccountName
  have hfind : accounts.find? (fun acc => acc.id == accountId) = none := by
    apply List.find?_eq_none.mpr
    intro a ha
    simpa using h a ha
  rw [hfind]

/-- C7 witness: a one-account list whose only id is 1 resolves the
unknown id 2 to the sentinel label. -/
theorem getAccountName_unknown_witness :
    getAccountName [⟨1, "Banco", 100⟩] 2 = "Conta desconhecida" :=
  getAccountName_unknown [⟨1, "Banco", 100⟩] 2 (by decide)

/-- C8: groupTransactionsByMonth applied to the empty transaction
list returns the empty mapping, with no groups. -/
theorem groupTransactionsByMonth_empty :
    groupTransactionsByMonth [] = [] :=
  rfl

/-- C9: for every input transaction list, the concatenation of the
groups returned by groupTransactionsByMonth, in group order, is a
permutation of the input list: every input transaction lands in
exactly one group and nothing is dropped, duplicated or invented. -/
theorem groupTransactionsByMonth_perm (transactions : List Transaction) :
    List.Perm (joinGroups (groupTransactionsByMonth transactions))
      transactions := by
  refine (joinGroups_map_sort (buildGroups transactions)).trans ?_
  exact joinGroups_buildGroups_aux transactions []

/-- C10: for every current filter state and every update object,
handleFiltersChange produces a state in which looking up any field
returns the value from the update object when the update object names
that field, and the previous value of the field otherwise. -/
theorem handleFiltersChange_merge (filters : Filters)
    (newFilters : List (String × FilterValue)) (k : String) :
    List.lookup k (handleFiltersChange filters newFilters) =
      (List.lookup k newFilters).or
        (List.lookup k (filtersToPairs filters)) :=
  lookup_spreadMerge (filtersToPairs filters) newFilters k
